import Mathlib

set_option maxHeartbeats 1000000

/-!
Verification of the thread-lifecycle / resource-arbitration runtime of
RevvyAlphaKit against its specification.

The embedding below translates the Python sources:
  * `revvy/utils/thread_wrapper.py`  (class ThreadWrapper, ThreadContext)
  * `revvy/scripting/runtime.py`     (ScriptHandle, ScriptManager)
  * `revvy/scripting/robot_interface.py` (Wrapper, RobotInterface)
  * `revvy/utils.py`                 (RemoteController, RemoteControllerScheduler)
  * `revvy/scripting/resource.py`    (class Resource - absent from the sources,
                                      modelled from the spec, see below)

Two views of `ThreadWrapper` are used:
  * a functional view (`TW` plus state-transformer definitions) describing what
    each method does when the worker thread takes no step during the call -
    used for the claims about an idle worker;
  * an interleaved small-step system (`Sys`, `Step`, `Reach`) in which the
    worker thread and a caller execute the same code decomposed into its
    atomic actions - used for the concurrency claims.
-/

namespace Revvy

/-- A callback held in a `ThreadWrapper` callback list: either the
`self._thread_stopped_event.set` bound method that `ThreadWrapper.stop`
appends (thread_wrapper.py line 102), or a user-registered observer,
identified by a number. -/
inductive Cb where
  | setStoppedEvent : Cb
  | obs : Nat → Cb
deriving DecidableEq, Repr

/-- The fields of a `ThreadWrapper` object (thread_wrapper.py lines 23-37),
omitting the logger and the OS thread handle.  Events are booleans
(set / not set); `ctx` is `none` when `self._ctx is None` and `some b`
when a `ThreadContext` exists whose `stop_requested` flag is `b`. -/
structure TW where
  exiting : Bool
  stopped_callbacks : List Cb
  stop_requested_callbacks : List Cb
  control : Bool
  thread_stopped_event : Bool
  thread_running_event : Bool
  ctx : Option Bool
  was_started : Bool
deriving DecidableEq, Repr

/-- The state right after `ThreadWrapper.__init__`: flags false, events
cleared, callback lists empty, no context. -/
def initTW : TW :=
  { exiting := false
    stopped_callbacks := []
    stop_requested_callbacks := []
    control := false
    thread_stopped_event := false
    thread_running_event := false
    ctx := none
    was_started := false }

/-- State effect of invoking one callback: the appended
`_thread_stopped_event.set` sets the event, a user observer does not touch
the wrapper state. -/
def applyCb (s : TW) : Cb → TW
  | Cb.setStoppedEvent => { s with thread_stopped_event := true }
  | Cb.obs _ => s

/-- `_call_callbacks` (thread_wrapper.py lines 10-13): repeatedly `pop()`
the LAST element of the list and call it, until the list is empty.
Returns the callbacks in invocation order (newest registration first). -/
def callCallbacks (cbs : List Cb) : List Cb :=
  match h : cbs with
  | [] => []
  | _ :: _ => cbs.getLast (by simp [h]) :: callCallbacks cbs.dropLast
termination_by cbs.length
decreasing_by
  simp_all [List.length_dropLast]

/-- `ThreadWrapper.stopping` (lines 69-73). -/
def TW.stopping (s : TW) : Bool :=
  match s.ctx with
  | none => s.thread_stopped_event
  | some stop_requested => stop_requested

/-- `ThreadWrapper.start` (lines 79-86): asserts `not self._exiting`
(modelled as `none` on violation), clears `_thread_stopped_event`, sets
`_control`; the returned value is the `_thread_running_event` reference. -/
def TW.start (s : TW) : Option TW :=
  if s.exiting then none
  else some { s with thread_stopped_event := false, control := true }

/-- `ThreadWrapper.stop` (lines 88-118), as it executes when the worker
thread takes no step during the call (the interleaved model below covers
the racy executions).  Returns `none` where the code would block on
`self._thread_running_event.wait()` (line 96) with nobody to wake it.
Otherwise returns the new state, the list of callbacks invoked during the
call (the drained `_stop_requested_callbacks`, in invocation order), and
the value of the returned `_thread_stopped_event` at return time. -/
def TW.stop (s : TW) : Option (TW × List Cb × Bool) :=
  if s.stopping then
    -- line 89: `if self.stopping:` - only logs, returns the event
    some (s, [], s.thread_stopped_event)
  else if s.control && !s.thread_running_event then
    -- line 94-96: startup in progress, wait for the thread to start running
    none
  else if s.thread_running_event then
    -- lines 98-107: register `_thread_stopped_event.set` as a stopped
    -- callback, request the context to stop; then (lines 113-116, outside
    -- the lock) drain `_stop_requested_callbacks`
    let s1 : TW :=
      { s with stopped_callbacks := s.stopped_callbacks ++ [Cb.setStoppedEvent]
               ctx := s.ctx.map (fun _ => true) }
    let invoked := callCallbacks s1.stop_requested_callbacks
    let s2 := invoked.foldl applyCb { s1 with stop_requested_callbacks := [] }
    some (s2, invoked, s2.thread_stopped_event)
  else
    -- lines 109-111: no run active, set the event directly
    some ({ s with thread_stopped_event := true }, [], true)

/-- `ThreadWrapper.on_stopped` (lines 134-141): under the lock decide whether
the condition already holds (`self._was_started and not self._ctx`); if so the
callback is invoked immediately (after releasing the lock), otherwise it is
appended to `_stopped_callbacks`.  Returns the new state and the list of
callbacks invoked during the call. -/
def TW.on_stopped (s : TW) (cb : Nat) : TW × List Cb :=
  if s.was_started && s.ctx.isNone then
    (s, [Cb.obs cb])
  else
    ({ s with stopped_callbacks := s.stopped_callbacks ++ [Cb.obs cb] }, [])

/-- `ThreadWrapper.on_stop_requested` (lines 143-149): invoke immediately iff
`self._ctx and self._ctx.stop_requested` is truthy, else queue. -/
def TW.on_stop_requested (s : TW) (cb : Nat) : TW × List Cb :=
  match s.ctx with
  | some true => (s, [Cb.obs cb])
  | _ => ({ s with stop_requested_callbacks := s.stop_requested_callbacks ++ [Cb.obs cb] }, [])

/-- How the body function finished a run: a normal return, an
`InterruptedError` raised by cancellation unwinding (`ThreadContext.sleep`,
line 161, or `ScriptHandle._run` re-raising it, runtime.py line 90), or any
other unexpected exception. -/
inductive BodyOutcome where
  | normal
  | interrupted
  | fault
deriving DecidableEq, Repr

/-- What `_thread_func` logs for a run, per its `except` clauses
(thread_wrapper.py lines 56-59). -/
inductive RunLog where
  | interruptedLog
  | errorTraceback
deriving DecidableEq, Repr

/-- One iteration of the `while` loop of `ThreadWrapper._thread_func`
(lines 48-65), from the locked startup block to the end of the `finally`
block, with the body finishing in the given way.  Returns the new state,
the stopped callbacks invoked by the `finally` block (in invocation order),
and what was logged about the outcome.  Both `except` clauses swallow the
exception, so the function is total: nothing propagates past the boundary. -/
def TW.runIteration (s : TW) (outcome : BodyOutcome) : TW × List Cb × List RunLog :=
  -- lines 49-53: with the lock, create the context, mark started, set the
  -- running event, clear the control event; then the body runs
  let s1 : TW :=
    { s with ctx := some false, was_started := true
             thread_running_event := true, control := false }
  -- lines 56-59: except InterruptedError / except Exception
  let logs : List RunLog :=
    match outcome with
    | BodyOutcome.normal => []
    | BodyOutcome.interrupted => [RunLog.interruptedLog]
    | BodyOutcome.fault => [RunLog.errorTraceback]
  -- lines 60-65: finally, with the lock: clear the running event, drain
  -- `_stopped_callbacks`, drop the context
  let invoked := callCallbacks s1.stopped_callbacks
  let s2 := invoked.foldl applyCb { s1 with thread_running_event := false, stopped_callbacks := [] }
  ({ s2 with ctx := none }, invoked, logs)

/-! ## Interleaved small-step model of `ThreadWrapper`

The worker thread created in `__init__` executes `_thread_func`; a caller
invokes `start` / `stop` / `on_stopped` (`ScriptHandle.start`,
runtime.py lines 96-100, stores the variables and calls
`ThreadWrapper.start`).  Each Python statement that reads or writes shared
state becomes one atomic step; blocks protected by `self._lock` that the
source executes without an intervening blocking call become one atomic
step, except the `finally` drain of `_stopped_callbacks`, whose callback
invocations are individual steps (the lock stays held across them). -/

/-- Observable events of an execution. -/
inductive Ev where
  | bodyBegin : Ev
  | bodyEnd : Ev
  | startSet : Ev
  | stopRequested : Ev
  | obsRun : Nat → Ev
  | reqObsRun : Nat → Ev
deriving DecidableEq, Repr

/-- Program counter of the worker thread inside `_thread_func`. -/
inductive WPc where
  | waitControl
  | checkExiting
  | startRun
  | runBody
  | finishRun
  | drain
  | setFinal
  | terminated
deriving DecidableEq, Repr

/-- Program counter of the caller. -/
inductive CPc where
  | idle
  | stopCheck
  | stopWaitRunning
  | stopLocked
  | stopDrainReq
  | startClearStopped
  | startSetControl
  | regStopped : Nat → CPc
  | regStoppedInvoke : Nat → CPc
deriving DecidableEq, Repr

/-- Global state of the interleaved system. -/
structure Sys where
  tw : TW
  wpc : WPc
  cpc : CPc
  lockHeldByWorker : Bool
deriving DecidableEq, Repr

/-- State right after `ThreadWrapper.__init__`: the worker thread is parked
at `self._control.wait()` and the caller is between calls. -/
def sysInit : Sys :=
  { tw := initTW, wpc := WPc.waitControl, cpc := CPc.idle, lockHeldByWorker := false }

/-- Event emitted by executing one queued callback during a drain. -/
def cbEvents : Cb → List Ev
  | Cb.setStoppedEvent => []
  | Cb.obs i => [Ev.obsRun i]

/-- Event emitted by executing one queued stop-requested callback. -/
def reqCbEvents : Cb → List Ev
  | Cb.setStoppedEvent => []
  | Cb.obs i => [Ev.reqObsRun i]

/-- One atomic step of the system: `Step s evs t` means state `s` goes to
state `t` emitting the events `evs`.  Constructors follow the source lines
of thread_wrapper.py noted on each. -/
inductive Step : Sys → List Ev → Sys → Prop where
  /-- line 40: `self._control.wait()` returns once the event is set. -/
  | wWait (s : Sys) (h1 : s.wpc = WPc.waitControl) (h2 : s.tw.control = true) :
      Step s [] { s with wpc := WPc.checkExiting }
  /-- line 42 / 47: `_wait_for_start` returned true, loop continues. -/
  | wCheckRun (s : Sys) (h1 : s.wpc = WPc.checkExiting) (h2 : s.tw.exiting = false) :
      Step s [] { s with wpc := WPc.startRun }
  /-- line 42 / 47: `_wait_for_start` returned false, loop exits. -/
  | wCheckExit (s : Sys) (h1 : s.wpc = WPc.checkExiting) (h2 : s.tw.exiting = true) :
      Step s [] { s with wpc := WPc.setFinal }
  /-- lines 49-53: with the lock, create the context, mark started, set the
  running event, clear the control event; the body then begins (line 55). -/
  | wStartRun (s : Sys) (h1 : s.wpc = WPc.startRun) (h2 : s.lockHeldByWorker = false) :
      Step s [Ev.bodyBegin]
        { s with wpc := WPc.runBody
                 tw := { s.tw with ctx := some false, was_started := true
                                   thread_running_event := true, control := false } }
  /-- line 55: `self._func(self._ctx)` finishes (returns, is interrupted, or
  faults - the wrapper state change is the same either way). -/
  | wBodyEnd (s : Sys) (h1 : s.wpc = WPc.runBody) :
      Step s [Ev.bodyEnd] { s with wpc := WPc.finishRun }
  /-- lines 61-63: the `finally` block acquires the lock and clears
  `_thread_running_event`. -/
  | wFinishAcquire (s : Sys) (h1 : s.wpc = WPc.finishRun) (h2 : s.lockHeldByWorker = false) :
      Step s []
        { s with wpc := WPc.drain, lockHeldByWorker := true
                 tw := { s.tw with thread_running_event := false } }
  /-- line 64 via lines 10-13: `_call_callbacks` pops the LAST element of
  `_stopped_callbacks` and calls it. -/
  | wDrainPop (s : Sys) (l : List Cb) (cb : Cb)
      (h1 : s.wpc = WPc.drain) (h2 : s.tw.stopped_callbacks = l ++ [cb]) :
      Step s (cbEvents cb)
        { s with tw := applyCb { s.tw with stopped_callbacks := l } cb }
  /-- lines 64-65: the list is empty; `self._ctx = None`, lock released,
  back to the top of the loop. -/
  | wDrainDone (s : Sys) (h1 : s.wpc = WPc.drain) (h2 : s.tw.stopped_callbacks = []) :
      Step s []
        { s with wpc := WPc.waitControl, lockHeldByWorker := false
                 tw := { s.tw with ctx := none } }
  /-- line 67: `self._thread_stopped_event.set()` after the loop. -/
  | wSetFinal (s : Sys) (h1 : s.wpc = WPc.setFinal) :
      Step s []
        { s with wpc := WPc.terminated
                 tw := { s.tw with thread_stopped_event := true } }
  /-- caller enters `ThreadWrapper.stop` (line 88). -/
  | cBeginStop (s : Sys) (h1 : s.cpc = CPc.idle) :
      Step s [] { s with cpc := CPc.stopCheck }
  /-- line 89: `self.stopping` is true - only logs and returns the event. -/
  | cStopDone (s : Sys) (h1 : s.cpc = CPc.stopCheck) (h2 : s.tw.stopping = true) :
      Step s [] { s with cpc := CPc.idle }
  /-- lines 94-96: startup in progress, wait for the running event. -/
  | cStopWait (s : Sys) (h1 : s.cpc = CPc.stopCheck) (h2 : s.tw.stopping = false)
      (h3 : s.tw.control = true) :
      Step s [] { s with cpc := CPc.stopWaitRunning }
  /-- line 94 false: proceed to the locked block. -/
  | cStopNoWait (s : Sys) (h1 : s.cpc = CPc.stopCheck) (h2 : s.tw.stopping = false)
      (h3 : s.tw.control = false) :
      Step s [] { s with cpc := CPc.stopLocked }
  /-- line 96: `self._thread_running_event.wait()` returns. -/
  | cStopWaitDone (s : Sys) (h1 : s.cpc = CPc.stopWaitRunning)
      (h2 : s.tw.thread_running_event = true) :
      Step s [] { s with cpc := CPc.stopLocked }
  /-- lines 98-107: with the lock, the thread is running: append
  `_thread_stopped_event.set` to `_stopped_callbacks` and request the
  context to stop; stop-requested callbacks are drained next. -/
  | cStopLockedRunning (s : Sys) (h1 : s.cpc = CPc.stopLocked)
      (h2 : s.lockHeldByWorker = false) (h3 : s.tw.thread_running_event = true) :
      Step s [Ev.stopRequested]
        { s with cpc := CPc.stopDrainReq
                 tw := { s.tw with
                          stopped_callbacks := s.tw.stopped_callbacks ++ [Cb.setStoppedEvent]
                          ctx := s.tw.ctx.map (fun _ => true) } }
  /-- lines 109-111: with the lock, no run active: set the event directly. -/
  | cStopLockedIdle (s : Sys) (h1 : s.cpc = CPc.stopLocked)
      (h2 : s.lockHeldByWorker = false) (h3 : s.tw.thread_running_event = false) :
      Step s []
        { s with cpc := CPc.idle
                 tw := { s.tw with thread_stopped_event := true } }
  /-- line 115 via lines 10-13: pop and call the last stop-requested
  callback (this drain runs outside the lock). -/
  | cStopDrainPop (s : Sys) (l : List Cb) (cb : Cb)
      (h1 : s.cpc = CPc.stopDrainReq) (h2 : s.tw.stop_requested_callbacks = l ++ [cb]) :
      Step s (reqCbEvents cb)
        { s with tw := applyCb { s.tw with stop_requested_callbacks := l } cb }
  /-- line 115: drain finished, `stop` returns the event. -/
  | cStopDrainDone (s : Sys) (h1 : s.cpc = CPc.stopDrainReq)
      (h2 : s.tw.stop_requested_callbacks = []) :
      Step s [] { s with cpc := CPc.idle }
  /-- caller enters `ThreadWrapper.start` (lines 79-80); the assert
  requires `not self._exiting`. -/
  | cBeginStart (s : Sys) (h1 : s.cpc = CPc.idle) (h2 : s.tw.exiting = false) :
      Step s [] { s with cpc := CPc.startClearStopped }
  /-- line 83: `self._thread_stopped_event.clear()`. -/
  | cStartClear (s : Sys) (h1 : s.cpc = CPc.startClearStopped) :
      Step s []
        { s with cpc := CPc.startSetControl
                 tw := { s.tw with thread_stopped_event := false } }
  /-- line 84: `self._control.set()`; `start` then returns the running
  event. -/
  | cStartSet (s : Sys) (h1 : s.cpc = CPc.startSetControl) :
      Step s [Ev.startSet]
        { s with cpc := CPc.idle, tw := { s.tw with control := true } }
  /-- caller enters `ThreadWrapper.on_stopped` (line 134). -/
  | cBeginReg (s : Sys) (i : Nat) (h1 : s.cpc = CPc.idle) :
      Step s [] { s with cpc := CPc.regStopped i }
  /-- lines 135-138: condition already holds, invoke after the lock. -/
  | cRegImmediate (s : Sys) (i : Nat) (h1 : s.cpc = CPc.regStopped i)
      (h2 : s.lockHeldByWorker = false)
      (h3 : s.tw.was_started && s.tw.ctx.isNone = true) :
      Step s [] { s with cpc := CPc.regStoppedInvoke i }
  /-- lines 135-138: condition does not hold, queue the callback. -/
  | cRegQueue (s : Sys) (i : Nat) (h1 : s.cpc = CPc.regStopped i)
      (h2 : s.lockHeldByWorker = false)
      (h3 : (s.tw.was_started && s.tw.ctx.isNone) = false) :
      Step s []
        { s with cpc := CPc.idle
                 tw := { s.tw with stopped_callbacks := s.tw.stopped_callbacks ++ [Cb.obs i] } }
  /-- lines 140-141: invoke the callback outside the lock. -/
  | cRegInvoke (s : Sys) (i : Nat) (h1 : s.cpc = CPc.regStoppedInvoke i) :
      Step s [Ev.obsRun i] { s with cpc := CPc.idle }

/-- Reachability from `sysInit`, accumulating the chronological trace. -/
inductive Reach : Sys → List Ev → Prop where
  | init : Reach sysInit []
  | next {s : Sys} {tr : List Ev} {evs : List Ev} {t : Sys} :
      Reach s tr → Step s evs t → Reach t (tr ++ evs)

/-- Is an event a body begin/end marker. -/
def bodyEv : Ev → Bool
  | Ev.bodyBegin => true
  | Ev.bodyEnd => true
  | _ => false

/-- `BodyAlt tr b`: in the chronological trace `tr` the body begin/end
events strictly alternate starting with a begin, and `b` tells whether a
body invocation is open (begun but not yet ended) at the end of `tr`.
In particular at most one body invocation is ever in progress, and a new
body begins only after the previous one has fully exited. -/
inductive BodyAlt : List Ev → Bool → Prop where
  | nil : BodyAlt [] false
  | other {tr : List Ev} {b : Bool} (e : Ev) :
      bodyEv e = false → BodyAlt tr b → BodyAlt (tr ++ [e]) b
  | begins {tr : List Ev} : BodyAlt tr false → BodyAlt (tr ++ [Ev.bodyBegin]) true
  | finishes {tr : List Ev} : BodyAlt tr true → BodyAlt (tr ++ [Ev.bodyEnd]) false

/-- Key invariant of the interleaved model: along every reachable
execution the body begin/end events alternate, and a body invocation is
open exactly while the worker program counter is inside `self._func`. -/
lemma reach_bodyAlt {s : Sys} {tr : List Ev} (h : Reach s tr) :
    BodyAlt tr (decide (s.wpc = WPc.runBody)) := by
  induction h with
  | init => exact BodyAlt.nil
  | next hr hs ih =>
    rename_i s₀ tr₀ evs t
    cases hs with
    | wWait h1 h2 =>
        rw [h1] at ih; simpa using ih
    | wCheckRun h1 h2 =>
        rw [h1] at ih; simpa using ih
    | wCheckExit h1 h2 =>
        rw [h1] at ih; simpa using ih
    | wStartRun h1 h2 =>
        rw [h1] at ih
        have ih0 : BodyAlt tr₀ false := by simpa using ih
        simpa using BodyAlt.begins ih0
    | wBodyEnd h1 =>
        rw [h1] at ih
        have ih0 : BodyAlt tr₀ true := by simpa using ih
        simpa using BodyAlt.finishes ih0
    | wFinishAcquire h1 h2 =>
        rw [h1] at ih; simpa using ih
    | wDrainPop l cb h1 h2 =>
        cases cb with
        | setStoppedEvent => simpa [cbEvents, h1] using ih
        | obs i =>
            have ih0 : BodyAlt tr₀ false := by simpa [h1] using ih
            simpa [cbEvents, h1] using BodyAlt.other (Ev.obsRun i) rfl ih0
    | wDrainDone h1 h2 =>
        rw [h1] at ih; simpa using ih
    | wSetFinal h1 =>
        rw [h1] at ih; simpa using ih
    | cBeginStop h1 =>
        simpa using ih
    | cStopDone h1 h2 =>
        simpa using ih
    | cStopWait h1 h2 h3 =>
        simpa using ih
    | cStopNoWait h1 h2 h3 =>
        simpa using ih
    | cStopWaitDone h1 h2 =>
        simpa using ih
    | cStopLockedRunning h1 h2 h3 =>
        exact BodyAlt.other Ev.stopRequested rfl ih
    | cStopLockedIdle h1 h2 h3 =>
        simpa using ih
    | cStopDrainPop l cb h1 h2 =>
        cases cb with
        | setStoppedEvent => simpa [reqCbEvents] using ih
        | obs i => exact BodyAlt.other (Ev.reqObsRun i) rfl ih
    | cStopDrainDone h1 h2 =>
        simpa using ih
    | cBeginStart h1 h2 =>
        simpa using ih
    | cStartClear h1 =>
        simpa using ih
    | cStartSet h1 =>
        exact BodyAlt.other Ev.startSet rfl ih
    | cBeginReg i h1 =>
        simpa using ih
    | cRegImmediate i h1 h2 h3 =>
        simpa using ih
    | cRegQueue i h1 h2 h3 =>
        simpa using ih
    | cRegInvoke i h1 =>
        exact BodyAlt.other (Ev.obsRun i) rfl ih

/-! ## Concrete executions used by the claims about `ThreadWrapper` -/

/-- State reached by: `start()`; the worker begins the body; `on_stopped`
registers observer 42 while the body runs (so it is queued); `stop()` is
called (appending the signal setter and requesting the context to stop);
the body exits; the `finally` block begins draining and pops the LAST
callback - the signal setter - first. -/
def c2Sys : Sys :=
  { tw := { exiting := false
            stopped_callbacks := [Cb.obs 42]
            stop_requested_callbacks := []
            control := false
            thread_stopped_event := true
            thread_running_event := false
            ctx := some true
            was_started := true }
    wpc := WPc.drain
    cpc := CPc.idle
    lockHeldByWorker := true }

/-- Chronological trace of the execution reaching `c2Sys`. -/
def c2Trace : List Ev := [Ev.startSet, Ev.bodyBegin, Ev.stopRequested, Ev.bodyEnd]

/-- The `c2Sys` execution, step by step. -/
lemma reach_c2Sys : Reach c2Sys c2Trace := by
  have h1 := Reach.next Reach.init (Step.cBeginStart sysInit rfl rfl)
  have h2 := Reach.next h1 (Step.cStartClear _ rfl)
  have h3 := Reach.next h2 (Step.cStartSet _ rfl)
  have h4 := Reach.next h3 (Step.wWait _ rfl rfl)
  have h5 := Reach.next h4 (Step.wCheckRun _ rfl rfl)
  have h6 := Reach.next h5 (Step.wStartRun _ rfl rfl)
  have h7 := Reach.next h6 (Step.cBeginReg _ 42 rfl)
  have h8 := Reach.next h7 (Step.cRegQueue _ 42 rfl rfl rfl)
  have h9 := Reach.next h8 (Step.cBeginStop _ rfl)
  have h10 := Reach.next h9 (Step.cStopNoWait _ rfl rfl rfl)
  have h11 := Reach.next h10 (Step.cStopLockedRunning _ rfl rfl rfl)
  have h12 := Reach.next h11 (Step.cStopDrainDone _ rfl rfl)
  have h13 := Reach.next h12 (Step.wBodyEnd _ rfl)
  have h14 := Reach.next h13 (Step.wFinishAcquire _ rfl rfl)
  have h15 := Reach.next h14
    (Step.wDrainPop _ [Cb.obs 42] Cb.setStoppedEvent rfl rfl)
  exact h15

/-- Claim C2 as stated: whenever `stop` has requested a running body to
stop, the stop signal (`_thread_stopped_event`) is never set while a
stopped observer registered for that run has not yet executed (an observer
still queued in `_stopped_callbacks` has not executed). -/
def c2Claim : Prop :=
  ∀ (s : Sys) (tr : List Ev), Reach s tr → Ev.stopRequested ∈ tr →
    s.tw.thread_stopped_event = true →
    ∀ i : Nat, Cb.obs i ∈ s.tw.stopped_callbacks → Ev.obsRun i ∈ tr

/-- Claim C3 as stated needs to see that a `start` happened while a body
was in progress: scan the trace for a `_control.set()` that occurred
between a body begin and its end. -/
def startDuringRun (tr : List Ev) : Bool :=
  (tr.foldl
    (fun acc e =>
      match e with
      | Ev.bodyBegin => (true, acc.2)
      | Ev.bodyEnd => (false, acc.2)
      | Ev.startSet => (acc.1, acc.2 || acc.1)
      | _ => acc)
    (false, false)).2

/-- Claim C3 as stated: if `start` is issued while the body is still
running, the current run is (first) requested to stop. -/
def c3Claim : Prop :=
  ∀ (s : Sys) (tr : List Ev), Reach s tr → startDuringRun tr = true →
    Ev.stopRequested ∈ tr

/-- State reached by: `start()`; the body begins; `start()` is called again
while the body is still running (no stop requested); the body later exits
on its own and the worker immediately begins a second run. -/
def c3Sys : Sys :=
  { tw := { exiting := false
            stopped_callbacks := []
            stop_requested_callbacks := []
            control := false
            thread_stopped_event := false
            thread_running_event := true
            ctx := some false
            was_started := true }
    wpc := WPc.runBody
    cpc := CPc.idle
    lockHeldByWorker := false }

/-- Chronological trace of the execution reaching `c3Sys`: two body begins,
a `start` between them issued mid-run, and no stop request anywhere. -/
def c3Trace : List Ev :=
  [Ev.startSet, Ev.bodyBegin, Ev.startSet, Ev.bodyEnd, Ev.bodyBegin]

/-- The `c3Sys` execution, step by step. -/
lemma reach_c3Sys : Reach c3Sys c3Trace := by
  have h1 := Reach.next Reach.init (Step.cBeginStart sysInit rfl rfl)
  have h2 := Reach.next h1 (Step.cStartClear _ rfl)
  have h3 := Reach.next h2 (Step.cStartSet _ rfl)
  have h4 := Reach.next h3 (Step.wWait _ rfl rfl)
  have h5 := Reach.next h4 (Step.wCheckRun _ rfl rfl)
  have h6 := Reach.next h5 (Step.wStartRun _ rfl rfl)
  have h7 := Reach.next h6 (Step.cBeginStart _ rfl rfl)
  have h8 := Reach.next h7 (Step.cStartClear _ rfl)
  have h9 := Reach.next h8 (Step.cStartSet _ rfl)
  have h10 := Reach.next h9 (Step.wBodyEnd _ rfl)
  have h11 := Reach.next h10 (Step.wFinishAcquire _ rfl rfl)
  have h12 := Reach.next h11 (Step.wDrainDone _ rfl rfl)
  have h13 := Reach.next h12 (Step.wWait _ rfl rfl)
  have h14 := Reach.next h13 (Step.wCheckRun _ rfl rfl)
  have h15 := Reach.next h14 (Step.wStartRun _ rfl rfl)
  exact h15

/-! ## Claims C1, C2, C3 -/

/-- C1: for every interleaving of `start` and `stop` calls with the worker
thread, at most one invocation of the body function is in progress at any
time, and a body invocation begins only after the previous one has fully
exited: along every reachable execution the body begin/end events strictly
alternate, the open invocation being exactly the one the worker is
currently executing. -/
theorem c1_single_body_invocation {s : Sys} {tr : List Ev} (h : Reach s tr) :
    BodyAlt tr (decide (s.wpc = WPc.runBody)) :=
  reach_bodyAlt h

/-- Witness for C1 at the initial state. -/
theorem c1_single_body_invocation_witness :
    BodyAlt ([] : List Ev) (decide (sysInit.wpc = WPc.runBody)) :=
  c1_single_body_invocation Reach.init

/-- C2 is refuted as stated: `_call_callbacks` pops the last element first,
and `stop` appends `_thread_stopped_event.set` after any already-registered
observers, so the drain sets the stop signal before those observers run.
In `c2Sys`, the signal is set while observer 42, registered during the run
before `stop` was called, is still queued and has not executed. -/
theorem c2_counterexample : ¬ c2Claim := by
  intro h
  have h42 := h c2Sys c2Trace reach_c2Sys (by decide) rfl 42 (by decide)
  exact absurd h42 (by decide)

/-- C2 (amended): the stop signal and the stopped observers of a run fire
only in the `finally` drain, strictly after the body of that run has fully
exited - no body invocation is in progress while the drain runs; but the
drain executes callbacks in LIFO order, so the signal setter appended by
`stop` runs before observers registered earlier. -/
theorem c2_signal_after_body_exit {s : Sys} {tr : List Ev} (h : Reach s tr)
    (hd : s.wpc = WPc.drain) : BodyAlt tr false := by
  have h0 := reach_bodyAlt h
  rw [hd] at h0
  simpa using h0

/-- Witness for the amended C2 at the concrete draining execution. -/
theorem c2_signal_after_body_exit_witness : BodyAlt c2Trace false :=
  c2_signal_after_body_exit reach_c2Sys rfl

/-- C3 is refuted as stated: in `c3Sys`, `start` was issued while the body
was still running (`startDuringRun c3Trace`), a second body run begins
(second `bodyBegin` in `c3Trace`), yet no stop was ever requested of the
first run (`stopRequested` never occurs). -/
theorem c3_counterexample : ¬ c3Claim := by
  intro h
  have hmem := h c3Sys c3Trace reach_c3Sys (by decide)
  exact absurd hmem (by decide)

/-- The fields of a `ScriptHandle` (runtime.py lines 35-100) that its
`start` method touches: the per-invocation variables (`self._inputs`) and
the underlying `ThreadWrapper` (`self._thread`).  Variables are modelled as
a name/value association list. -/
structure ScriptHandleS where
  inputs : List (String × Nat)
  tw : TW
deriving DecidableEq, Repr

/-- `ScriptHandle.start` (runtime.py lines 96-100): default the variables
to the empty dict, store them in `self._inputs`, and return
`self._thread.start()`. -/
def ScriptHandleS.start (h : ScriptHandleS) (vars : Option (List (String × Nat))) :
    Option ScriptHandleS :=
  let vs := vars.getD []
  match TW.start h.tw with
  | none => none
  | some tw1 => some { inputs := vs, tw := tw1 }

/-- C3 (amended): `ScriptHandle.start` on a handle whose body is still
running does not stop that run: it stores the new inputs, clears the
stopped event and sets the control event, leaving the context of the run - in
particular its stop-request flag - and the running event untouched, and
never invoking `stop`.  The queued run begins only once the current body
has exited on its own (per the run-alternation invariant of the
interleaved model). -/
theorem c3_start_queues_without_stop (h : ScriptHandleS)
    (vars : Option (List (String × Nat))) (hex : h.tw.exiting = false) :
    ScriptHandleS.start h vars =
      some { inputs := vars.getD []
             tw := { h.tw with thread_stopped_event := false, control := true } } := by
  simp [ScriptHandleS.start, TW.start, hex]

/-- Witness for the amended C3: a handle whose body is running (running
event set, context live) at a concrete state. -/
theorem c3_start_queues_without_stop_witness :
    ScriptHandleS.start
        { inputs := [], tw := { initTW with thread_running_event := true
                                            ctx := some false, was_started := true } }
        (some [("input", 5)]) =
      some { inputs := [("input", 5)]
             tw := { initTW with thread_running_event := true
                                 ctx := some false, was_started := true
                                 thread_stopped_event := false, control := true } } :=
  c3_start_queues_without_stop _ _ rfl

/-! ## Claims C6, C7, C8 (idle-worker and fault-handling behaviour) -/

/-- C6: on a worker with no run active (no live context, the running event
clear, no startup pending), `stop()` returns an already-ready signal and
invokes no stopped or stop-requested observer; a second `stop()` returns
the same already-ready signal from the unchanged state and again invokes
nothing - so across any sequence of `stop()` calls from this state no
observer is ever invoked (in particular none twice). -/
theorem c6_idle_stop_idempotent (s : TW) (hctx : s.ctx = none)
    (hrun : s.thread_running_event = false) (hctl : s.control = false) :
    ∃ s1 : TW, TW.stop s = some (s1, [], true) ∧ TW.stop s1 = some (s1, [], true) := by
  by_cases hstop : s.thread_stopped_event
  · refine ⟨s, ?_, ?_⟩ <;>
      simp [TW.stop, TW.stopping, hctx, hstop]
  · refine ⟨{ s with thread_stopped_event := true }, ?_, ?_⟩ <;>
      simp [TW.stop, TW.stopping, hctx, hrun, hctl, hstop]

/-- Witness for C6 at a freshly constructed worker. -/
theorem c6_idle_stop_idempotent_witness :
    ∃ s1 : TW, TW.stop initTW = some (s1, [], true) ∧ TW.stop s1 = some (s1, [], true) :=
  c6_idle_stop_idempotent initTW rfl rfl rfl

/-- C7: on a worker that has been started at least once and whose run has
fully stopped (`self._was_started and not self._ctx`), `on_stopped`
invokes the observer during the call itself and does not queue it: the
state is unchanged and the invocation list is exactly the new observer. -/
theorem c7_on_stopped_fires_immediately (s : TW) (cb : Nat)
    (hws : s.was_started = true) (hctx : s.ctx = none) :
    TW.on_stopped s cb = (s, [Cb.obs cb]) := by
  simp [TW.on_stopped, hws, hctx]

/-- Witness for C7: a worker that ran once and fully stopped. -/
theorem c7_on_stopped_fires_immediately_witness :
    TW.on_stopped { initTW with was_started := true } 7 =
      ({ initTW with was_started := true }, [Cb.obs 7]) :=
  c7_on_stopped_fires_immediately _ 7 rfl rfl

/-- Invoking a callback never touches the running event. -/
lemma applyCb_thread_running (s : TW) (cb : Cb) :
    (applyCb s cb).thread_running_event = s.thread_running_event := by
  cases cb <;> rfl

/-- Invoking a callback never touches the queued stopped callbacks. -/
lemma applyCb_stopped_callbacks (s : TW) (cb : Cb) :
    (applyCb s cb).stopped_callbacks = s.stopped_callbacks := by
  cases cb <;> rfl

/-- A drain of invocations never touches the running event. -/
lemma foldl_applyCb_thread_running (l : List Cb) (s : TW) :
    (l.foldl applyCb s).thread_running_event = s.thread_running_event := by
  induction l generalizing s with
  | nil => rfl
  | cons cb l ih => simp [List.foldl_cons, ih, applyCb_thread_running]

/-- A drain of invocations never touches the queued stopped callbacks. -/
lemma foldl_applyCb_stopped_callbacks (l : List Cb) (s : TW) :
    (l.foldl applyCb s).stopped_callbacks = s.stopped_callbacks := by
  induction l generalizing s with
  | nil => rfl
  | cons cb l ih => simp [List.foldl_cons, ih, applyCb_stopped_callbacks]

/-- C8: a body finishing with an unexpected exception is caught at the
`_thread_func` boundary and handled identically to a normal return - the
same post-state (running event cleared, context dropped, queued stopped
callbacks drained) and the same observer invocations; the exception is
logged (traceback) and does not propagate (the iteration function is total
and always reaches the `finally` block); an `InterruptedError` takes the
separate `except InterruptedError` path and is not logged as an error. -/
theorem c8_fault_handled_as_normal_return (s : TW) (o : BodyOutcome) :
    (TW.runIteration s o).1 = (TW.runIteration s BodyOutcome.normal).1 ∧
    (TW.runIteration s o).2.1 = (TW.runIteration s BodyOutcome.normal).2.1 ∧
    (TW.runIteration s o).1.thread_running_event = false ∧
    (TW.runIteration s o).1.ctx = none ∧
    (TW.runIteration s o).1.stopped_callbacks = [] ∧
    (TW.runIteration s o).2.2 =
      (match o with
       | BodyOutcome.normal => []
       | BodyOutcome.interrupted => [RunLog.interruptedLog]
       | BodyOutcome.fault => [RunLog.errorTraceback]) := by
  cases o <;> simp [TW.runIteration, foldl_applyCb_thread_running, foldl_applyCb_stopped_callbacks]


/-! ## RemoteController keep-alive model (revvy/utils.py lines 146-260) -/

/-- A controller message (`self._message`): analog channel values as a
channel/value association and button boolean states. -/
structure Msg where
  analog : List (Nat × Int)
  buttons : List Bool
deriving DecidableEq, Repr

/-- An analog binding registered by `on_analog_values` (utils.py lines
225-226): the channel list; its action is identified by its position in
`_analogActions`. -/
structure AnalogHandler where
  channels : List Nat
deriving DecidableEq, Repr

/-- The state of `RemoteController` relevant to keep-alive handling
(utils.py lines 146-234).  The `EdgeTrigger` button handlers live in
`revvy/activation.py`, which is not among the sources; handing a button
state to its handler is recorded as an event instead of being interpreted. -/
structure RC where
  message : Option Msg
  missedKeepAlives : Int
  analogActions : List AnalogHandler
deriving DecidableEq, Repr

/-- Observable effects of `RemoteController.tick`. -/
inductive RCEv where
  | detected
  | disappeared
  | analogDispatch : Nat → List Int → RCEv
  | buttonHandle : Nat → Bool → RCEv
deriving DecidableEq, Repr

/-- The analog-channel lookup used by `tick`: look a channel up in the message. -/
def lookupChannel (analog : List (Nat × Int)) (c : Nat) : Option Int :=
  match analog.find? (fun p => p.1 == c) with
  | some p => some p.2
  | none => none

/-- `RemoteController._handle_keep_alive_missed` (lines 205-214): returns
the new `_missedKeepAlives` and the boolean the method returns (`false`
means the keep-alive limit was hit). -/
def handleKeepAliveMissed (missed : Int) : Int × Bool :=
  let m := if missed ≥ 0 then missed + 1 else missed
  if m ≥ 5 then (-1, false) else (m, true)

/-- Lines 190-195 of `tick`: for each analog binding whose channels are all
present in the message, invoke its action with the channel values. -/
def analogEvents (actions : List AnalogHandler) (m : Msg) : List RCEv :=
  actions.enum.filterMap (fun p =>
    if p.2.channels.all (fun c => (lookupChannel m.analog c).isSome) then
      some (RCEv.analogDispatch p.1 (p.2.channels.filterMap (lookupChannel m.analog)))
    else none)

/-- Lines 197-200 of `tick`: hand each button state to its handler. -/
def buttonEvents (m : Msg) : List RCEv :=
  (List.range 32).map (fun i => RCEv.buttonHandle i (m.buttons.getD i false))

/-- `RemoteController.tick` (lines 179-203): take and clear the pending
message; on a message, fire `detected` iff the counter is at the -1
sentinel, zero the counter and dispatch; on no message, run the keep-alive
bookkeeping and fire `disappeared` when it reports the limit hit. -/
def RC.tick (s : RC) : RC × List RCEv :=
  match s.message with
  | some m =>
      let detectedEvs := if s.missedKeepAlives = -1 then [RCEv.detected] else []
      ({ s with message := none, missedKeepAlives := 0 },
       detectedEvs ++ analogEvents s.analogActions m ++ buttonEvents m)
  | none =>
      let r := handleKeepAliveMissed s.missedKeepAlives
      ({ s with message := none, missedKeepAlives := r.1 },
       if r.2 then [] else [RCEv.disappeared])

/-- `RemoteController.update` (lines 228-230): store the latest message. -/
def RC.update (s : RC) (m : Msg) : RC := { s with message := some m }

/-- `RemoteController.start` (lines 232-234), called by
`RemoteControllerScheduler.start` (lines 252-255) before the worker runs:
reset the counter to the -1 sentinel. -/
def RC.start (s : RC) : RC := { s with missedKeepAlives := -1 }

/-- `RemoteController.__init__` (lines 147-163): no message pending,
counter at the sentinel, no bindings. -/
def rcInit : RC := { message := none, missedKeepAlives := -1, analogActions := [] }

/-- `n` iterations of the scheduler loop `_schedule_controller` (lines
246-250) during which `data_ready` is never signalled: the 0.1 s wait
times out each time and `tick` is called; no message is ever stored.
Returns the final state and the concatenated events. -/
def RC.ticks (s : RC) : Nat → RC × List RCEv
  | 0 => (s, [])
  | n + 1 =>
      let r := RC.tick s
      let rest := RC.ticks r.1 n
      (rest.1, r.2 ++ rest.2)


/-- No `disappeared` and no `detected` can come out of the analog dispatch. -/
lemma count_detected_analogEvents (A : List AnalogHandler) (m : Msg) :
    (analogEvents A m).count RCEv.detected = 0 := by
  rw [List.count_eq_zero]
  intro hmem
  simp only [analogEvents, List.mem_filterMap] at hmem
  obtain ⟨p, hp1, hp⟩ := hmem
  split at hp
  · exact absurd hp (by simp)
  · exact absurd hp (by simp)

/-- No `detected` can come out of the button dispatch. -/
lemma count_detected_buttonEvents (m : Msg) :
    (buttonEvents m).count RCEv.detected = 0 := by
  rw [List.count_eq_zero]
  intro hmem
  simp only [buttonEvents, List.mem_map] at hmem
  obtain ⟨i, hi1, hi⟩ := hmem
  exact absurd hi (by simp)

/-- An empty tick at the -1 sentinel changes nothing and fires nothing. -/
lemma tick_sentinel (s : RC) (h1 : s.message = none)
    (h2 : s.missedKeepAlives = -1) : RC.tick s = (s, []) := by
  cases s with
  | mk message missed actions =>
    simp only at h1 h2
    subst h1
    subst h2
    simp [RC.tick, handleKeepAliveMissed]

/-- Any number of empty ticks at the -1 sentinel changes nothing and fires
nothing: the counter never counts before a first detection. -/
lemma ticks_sentinel (s : RC) (h1 : s.message = none)
    (h2 : s.missedKeepAlives = -1) (k : Nat) : RC.ticks s k = (s, []) := by
  induction k with
  | zero => rfl
  | succ k ih => simp [RC.ticks, tick_sentinel s h1 h2, ih]

/-- Five empty ticks right after a message was consumed: the counter climbs
to 5, `disappeared` fires on the fifth tick and the counter falls back to
the -1 sentinel. -/
lemma ticks_five_from_zero (s : RC) (h1 : s.message = none)
    (h2 : s.missedKeepAlives = 0) :
    RC.ticks s 5 = ({ s with message := none, missedKeepAlives := -1 },
      [RCEv.disappeared]) := by
  cases s with
  | mk message missed actions =>
    simp only at h1 h2
    subst h1
    subst h2
    simp [RC.ticks, RC.tick, handleKeepAliveMissed]

/-- Splitting a run of empty ticks. -/
lemma ticks_add (s : RC) (a b : Nat) :
    RC.ticks s (a + b) =
      ((RC.ticks (RC.ticks s a).1 b).1,
        (RC.ticks s a).2 ++ (RC.ticks (RC.ticks s a).1 b).2) := by
  induction a generalizing s with
  | zero => simp [RC.ticks]
  | succ a ih => simp [Nat.succ_add, RC.ticks, ih]


/-- C4 is refuted as stated: right after the scheduler starts (counter at
the -1 sentinel) five consecutive ticks that find no pending message fire
no callback at all - the `lost` callback does not fire even once, because
`_handle_keep_alive_missed` never counts misses while the counter sits at
the sentinel, i.e. before a first message has been consumed. -/
theorem c4_counterexample :
    (RC.ticks (RC.start rcInit) 5).2.count RCEv.disappeared = 0 ∧
    (RC.ticks (RC.start rcInit) 5).2.count RCEv.disappeared ≠ 1 := by
  decide

/-- C4 (amended): after the scheduler starts, ticks that find no pending
message fire nothing while no message has yet been consumed (the counter
stays at the -1 sentinel); once a message has been consumed (counter 0),
`n ≥ 5` consecutive message-less ticks fire `lost` exactly once (on the
fifth, after 0.5 s at the 0.1 s poll interval), and a subsequent
`update`/`data_ready` delivering a message makes the next tick fire
`detected` exactly once. -/
theorem c4_lost_once_after_detection (s0 s : RC) (k n : Nat) (m : Msg)
    (h0msg : s0.message = none) (h0 : s0.missedKeepAlives = -1)
    (hmsg : s.message = none) (hm : s.missedKeepAlives = 0) (hn : 5 ≤ n) :
    (RC.ticks s0 k).2.count RCEv.disappeared = 0 ∧
    (RC.ticks s n).2.count RCEv.disappeared = 1 ∧
    (RC.tick (RC.update (RC.ticks s n).1 m)).2.count RCEv.detected = 1 := by
  obtain ⟨b, rfl⟩ := Nat.exists_eq_add_of_le hn
  have hsent : RC.ticks s0 k = (s0, []) := ticks_sentinel s0 h0msg h0 k
  have h5 := ticks_five_from_zero s hmsg hm
  have hrest := ticks_sentinel { s with message := none, missedKeepAlives := -1 } rfl rfl b
  refine ⟨by simp [hsent], ?_, ?_⟩
  · rw [ticks_add, h5]
    simp [hrest]
  · rw [ticks_add, h5]
    simp only [hrest]
    simp [RC.update, RC.tick, List.count_append,
          count_detected_analogEvents, count_detected_buttonEvents]

/-- Witness for the amended C4 at concrete states: a fresh controller, a
just-detected controller, five misses, then a message. -/
theorem c4_lost_once_after_detection_witness :
    (RC.ticks rcInit 3).2.count RCEv.disappeared = 0 ∧
    (RC.ticks { rcInit with missedKeepAlives := 0 } 5).2.count RCEv.disappeared = 1 ∧
    (RC.tick (RC.update (RC.ticks { rcInit with missedKeepAlives := 0 } 5).1
        { analog := [], buttons := [] })).2.count RCEv.detected = 1 :=
  c4_lost_once_after_detection rcInit { rcInit with missedKeepAlives := 0 } 3 5
    { analog := [], buttons := [] } rfl rfl rfl rfl (by decide)


/-! ## Priority arbitration (claim C5)

`revvy/scripting/resource.py` (class `Resource`) is not among the sources;
only its callers are (`Wrapper.try_take` in robot_interface.py lines 18-27
and the `Resource()` instances built in `RobotManager._resources`,
revvy_utils.py lines 257-264).  The resource itself is therefore modelled
from the spec (section 4.3). -/

/-- A grant handle: who holds the resource and at which priority. -/
structure ResourceHandle where
  hid : Nat
  priority : Nat
deriving DecidableEq, Repr

/-- Modelled from the spec: the state of one `Resource`
(`revvy/scripting/resource.py` is missing from the sources).  Spec section
4.3: "current holder (absent if free), holder priority, an interruption
flag"; `interrupted` records the handles whose holders have been preempted
(`is_interrupted`), `nextId` numbers the issued handles. -/
structure ResourceState where
  holder : Option ResourceHandle
  interrupted : List Nat
  nextId : Nat
deriving DecidableEq, Repr

/-- A resource as freshly constructed (`Resource()`): free. -/
def resourceInit : ResourceState :=
  { holder := none, interrupted := [], nextId := 0 }

/-- Modelled from the spec (section 4.3): `request(priority)` - if unheld,
grant immediately; if held by a priority numerically greater than or equal
to the requester (requester at least as urgent; lower value = more
urgent), set the current holder interruption flag, release the resource
from it and grant to the requester; if held by a priority numerically less
than the requester (holder strictly more urgent), deny and return an empty
result leaving the holder untouched. -/
def Resource.request (s : ResourceState) (priority : Nat) :
    ResourceState × Option ResourceHandle :=
  match s.holder with
  | none =>
      let h : ResourceHandle := { hid := s.nextId, priority := priority }
      ({ s with holder := some h, nextId := s.nextId + 1 }, some h)
  | some cur =>
      if priority ≤ cur.priority then
        let h : ResourceHandle := { hid := s.nextId, priority := priority }
        ({ s with holder := some h, interrupted := cur.hid :: s.interrupted
                  nextId := s.nextId + 1 }, some h)
      else
        (s, none)

/-- Modelled from the spec: `is_interrupted(handle)` - true once this
holder behind this handle has been preempted. -/
def Resource.is_interrupted (s : ResourceState) (h : ResourceHandle) : Bool :=
  s.interrupted.contains h.hid

/-- `Wrapper.try_take` (robot_interface.py lines 18-19): look the resource
up by name in the `_resources` dict and request it at the priority of the
wrapper. -/
def Wrapper.try_take (resources : List (String × ResourceState)) (nm : String)
    (priority : Nat) : Option (ResourceState × Option ResourceHandle) :=
  match resources.find? (fun p => p.1 == nm) with
  | some p => some (Resource.request p.2 priority)
  | none => none

/-- C5: the three arbitration cases of `request(priority)`.  Unheld: the
request is granted immediately.  Held at a numerically greater-or-equal
priority: the old holder is marked interrupted and the resource is
transferred to the requester.  Held at a numerically smaller priority: the
request returns an empty result and the state (holder included) is
completely unchanged. -/
theorem c5_priority_preemption (s : ResourceState) (p : Nat) :
    (s.holder = none →
      Resource.request s p =
        ({ s with holder := some { hid := s.nextId, priority := p }
                  nextId := s.nextId + 1 },
         some { hid := s.nextId, priority := p })) ∧
    (∀ cur : ResourceHandle, s.holder = some cur → p ≤ cur.priority →
      Resource.request s p =
        ({ s with holder := some { hid := s.nextId, priority := p }
                  interrupted := cur.hid :: s.interrupted
                  nextId := s.nextId + 1 },
         some { hid := s.nextId, priority := p }) ∧
      Resource.is_interrupted (Resource.request s p).1 cur = true) ∧
    (∀ cur : ResourceHandle, s.holder = some cur → cur.priority < p →
      Resource.request s p = (s, none)) := by
  refine ⟨fun hnone => ?_, fun cur hcur hle => ?_, fun cur hcur hlt => ?_⟩
  · simp [Resource.request, hnone]
  · constructor
    · simp [Resource.request, hcur, hle]
    · simp [Resource.request, Resource.is_interrupted, hcur, hle]
  · simp [Resource.request, hcur, Nat.not_le.mpr hlt]

/-- Witness for C5 at concrete states: a free resource granted at priority
4; a holder at priority 5 preempted by priority 2; a holder at priority 2
denying a priority-5 request. -/
theorem c5_priority_preemption_witness :
    (Resource.request resourceInit 4 =
      ({ resourceInit with holder := some { hid := 0, priority := 4 }, nextId := 1 },
       some { hid := 0, priority := 4 })) ∧
    (Resource.request { holder := some { hid := 0, priority := 5 }, interrupted := [], nextId := 1 } 2 =
      ({ holder := some { hid := 1, priority := 2 }, interrupted := [0], nextId := 2 },
       some { hid := 1, priority := 2 }) ∧
     Resource.is_interrupted
       (Resource.request { holder := some { hid := 0, priority := 5 }, interrupted := [], nextId := 1 } 2).1
       { hid := 0, priority := 5 } = true) ∧
    (Resource.request { holder := some { hid := 1, priority := 2 }, interrupted := [0], nextId := 2 } 5 =
      ({ holder := some { hid := 1, priority := 2 }, interrupted := [0], nextId := 2 }, none)) := by
  refine ⟨?_, ?_, ?_⟩
  · exact (c5_priority_preemption resourceInit 4).1 rfl
  · exact (c5_priority_preemption _ 2).2.1 { hid := 0, priority := 5 } rfl (by decide)
  · exact (c5_priority_preemption _ 5).2.2 { hid := 1, priority := 2 } rfl (by decide)


/-! ## ScriptManager.add_script (claim C9) -/

/-- The registry state of a `ScriptManager` (runtime.py lines 103-150):
the `_scripts` dict as an insertion-ordered name/handle association list,
a counter numbering constructed `ScriptHandle`s, and the set of handles on
which `cleanup` (= `ThreadWrapper.exit`) has been called. -/
structure SM where
  scripts : List (String × Nat)
  nextHandle : Nat
  cleanedUp : List Nat
deriving DecidableEq, Repr

/-- `self._scripts[name]` lookup. -/
def lookupScript (m : List (String × Nat)) (k : String) : Option Nat :=
  match m.find? (fun p => p.1 == k) with
  | some p => some p.2
  | none => none

/-- Python dict assignment `self._scripts[name] = handle`: replace the
existing binding or append a new one. -/
def setScript (m : List (String × Nat)) (k : String) (v : Nat) : List (String × Nat) :=
  match m with
  | [] => [(k, v)]
  | p :: rest => if p.1 == k then (k, v) :: rest else p :: setScript rest k v

/-- `ScriptManager.add_script` (runtime.py lines 125-143).  If the name is
already registered, `cleanup` the existing handle (the dict entry is NOT
removed).  Construct the new `ScriptHandle`.  Then build the
`RobotWrapper` interface and register the teardown hooks (lines 133-137) -
code that can raise (`RobotWrapper` itself is not among the sources);
`ok = false` models that failure: the except branch `cleanup`s the fresh
handle and re-raises.  On success the handle is stored under the name. -/
def add_script (st : SM) (nm : String) (ok : Bool) : SM × Except Unit Nat :=
  let st1 :=
    match lookupScript st.scripts nm with
    | some old => { st with cleanedUp := old :: st.cleanedUp }
    | none => st
  let h := st1.nextHandle
  let st2 := { st1 with nextHandle := st1.nextHandle + 1 }
  if ok then
    ({ st2 with scripts := setScript st2.scripts nm h }, Except.ok h)
  else
    ({ st2 with cleanedUp := h :: st2.cleanedUp }, Except.error ())

/-- C9 is refuted as stated: when `add_script` replaces an existing name
and then fails mid-construction, the name is NOT absent afterwards - the
dict still maps it to the previous (now exited) handle, because the
replacement path only `cleanup`s the old handle without deleting its
entry. -/
theorem c9_counterexample :
    (add_script { scripts := [("x", 0)], nextHandle := 1, cleanedUp := [] } "x" false).2 =
        Except.error () ∧
    lookupScript
        (add_script { scripts := [("x", 0)], nextHandle := 1, cleanedUp := [] } "x" false).1.scripts
        "x" = some 0 := by
  exact ⟨rfl, rfl⟩

/-- C9 (amended): when `add_script` fails after constructing the new
`ScriptHandle`, the partially built handle is `cleanup`ed (exited) before
the exception is re-raised, and the registry dict `_scripts` is exactly
as before the call: a previously absent name stays absent, but a name that
was being replaced still maps to the previous, now exited, handle. -/
theorem c9_failed_add_exits_partial_handle (st : SM) (nm : String) :
    (add_script st nm false).2 = Except.error () ∧
    (add_script st nm false).1.scripts = st.scripts ∧
    st.nextHandle ∈ (add_script st nm false).1.cleanedUp ∧
    (∀ old : Nat, lookupScript st.scripts nm = some old →
      old ∈ (add_script st nm false).1.cleanedUp) := by
  refine ⟨?_, ?_, ?_, ?_⟩ <;>
    · simp only [add_script]
      cases h : lookupScript st.scripts nm <;> simp [h]


/-! ## ScriptHandle.is_stop_requested attribute fault (claim C10) -/

/-- A Python exception kind relevant here. -/
inductive PyError where
  | attributeError
deriving DecidableEq, Repr

/-- The class-level attributes of `ThreadWrapper`
(revvy/utils/thread_wrapper.py lines 16-149): its methods and properties.
The class defines no `state` property and no `STOPPING` / `STOPPED`
constants. -/
def threadWrapperClassAttrs : List String :=
  ["__init__", "_wait_for_start", "_thread_func", "stopping", "is_running",
   "start", "stop", "exit", "on_stopped", "on_stop_requested"]

/-- The instance attributes a `ThreadWrapper` object carries after
`__init__` (lines 23-37). -/
def threadWrapperInstanceAttrs : List String :=
  ["_log", "_exiting", "_lock", "_func", "_stopped_callbacks",
   "_stop_requested_callbacks", "_control", "_thread_stopped_event",
   "_thread_running_event", "_ctx", "_was_started", "_thread"]

/-- Python attribute lookup on a `ThreadWrapper` instance: instance dict,
then class; `AttributeError` if neither has the name. -/
def getattrInstance (nm : String) : Except PyError Unit :=
  if nm ∈ threadWrapperInstanceAttrs ∨ nm ∈ threadWrapperClassAttrs then Except.ok ()
  else Except.error PyError.attributeError

/-- Python attribute lookup on the `ThreadWrapper` class object. -/
def getattrClass (nm : String) : Except PyError Unit :=
  if nm ∈ threadWrapperClassAttrs then Except.ok ()
  else Except.error PyError.attributeError

/-- `ScriptHandle.is_stop_requested` (runtime.py lines 58-60) evaluates
`self._thread.state in [ThreadWrapper.STOPPING, ThreadWrapper.STOPPED]`:
Python evaluates the left operand of `in` first, then the list elements.
The membership result itself is never reached, since every lookup fails;
the final `pure false` stands for it. -/
def scriptHandleIsStopRequested : Except PyError Bool := do
  let _ ← getattrInstance "state"
  let _ ← getattrClass "STOPPING"
  let _ ← getattrClass "STOPPED"
  pure false

/-- `RobotInterface.is_stop_requested` (robot_interface.py lines 284-286):
returns `self._script.is_stop_requested`, the script being the
`ScriptHandle`. -/
def robotInterfaceIsStopRequested : Except PyError Bool :=
  scriptHandleIsStopRequested

/-- `Wrapper.is_stop_requested` (robot_interface.py lines 14-16): returns
`self._robot.is_stop_requested`, the robot being the `RobotInterface` the
wrapper was built with. -/
def wrapperIsStopRequested : Except PyError Bool :=
  robotInterfaceIsStopRequested

/-- C10: reading `ScriptHandle.is_stop_requested` raises `AttributeError`
(neither `state` on the instance nor `STOPPING` / `STOPPED` on the class
exist), so the script-facing `Wrapper.is_stop_requested` /
`RobotInterface.is_stop_requested` chain always faults instead of
reporting whether cancellation was requested. -/
theorem c10_is_stop_requested_faults :
    scriptHandleIsStopRequested = Except.error PyError.attributeError ∧
    robotInterfaceIsStopRequested = Except.error PyError.attributeError ∧
    wrapperIsStopRequested = Except.error PyError.attributeError := by
  refine ⟨?_, ?_, ?_⟩ <;> rfl


/-- Witness for the amended C9 at a concrete registry: replacing the
existing name fails; both the old handle (0) and the fresh handle (1) end
up exited. -/
theorem c9_failed_add_exits_partial_handle_witness :
    (add_script { scripts := [("x", 0)], nextHandle := 1, cleanedUp := [] } "x" false).2 =
        Except.error () ∧
    1 ∈ (add_script { scripts := [("x", 0)], nextHandle := 1, cleanedUp := [] } "x" false).1.cleanedUp ∧
    0 ∈ (add_script { scripts := [("x", 0)], nextHandle := 1, cleanedUp := [] } "x" false).1.cleanedUp :=
  ⟨(c9_failed_add_exits_partial_handle { scripts := [("x", 0)], nextHandle := 1, cleanedUp := [] } "x").1,
   (c9_failed_add_exits_partial_handle { scripts := [("x", 0)], nextHandle := 1, cleanedUp := [] } "x").2.2.1,
   (c9_failed_add_exits_partial_handle { scripts := [("x", 0)], nextHandle := 1, cleanedUp := [] } "x").2.2.2 0 rfl⟩

end Revvy
